import Mathlib

/-!
# Verification of DD-Scripts core logic

Shallow embedding of the core logic of the DD-Scripts repository:

* `src/GE_Alerts_extract.py` — team-handle resolution (`_extract_team_handle`)
  and the fallback monitor-search query engine (`find_monitors_for_team`);
* `src/datadog_synthetics_export.py` — paginated synthetic-test fetching
  (`get_synthetic_tests`), record normalization (`process_synthetic_tests`
  and its field extractors) and the human-readable duration formatter
  (`format_seconds_to_human`).

Python/JSON values are modelled by the inductive `JVal` (ints stand in for
JSON numbers; Python `None` and JSON `null` are both `JVal.null`, matching
their identification by Python's `json` module).  Python operations that can
raise (`x.get` on a non-dict, `x.lower()` on a non-string, iteration or
`len` on a non-sized value, `", ".join` over non-strings) are embedded in
`Except PyErr`; operations Python performs totally (truthiness, `str()`,
`int()` with its `try/except`) are total functions.  ASCII lowering models
`str.lower` and `String.trim` models `str.strip`, which is exact on the
ASCII data these scripts handle.
-/



/-- A JSON/Python value as handled by the scripts: `null` models both JSON
`null` and Python `None`. -/
inductive JVal where
  | null
  | jb (b : Bool)
  | jn (n : Int)
  | js (s : String)
  | ja (elems : List JVal)
  | jo (fields : List (String × JVal))

/-- Python error kinds that the embedded code can raise. -/
inductive PyErr where
  | attributeError
  | typeError
deriving DecidableEq, Repr

/-- First-occurrence lookup in a field list (Python dict access). -/
def jlookup : List (String × JVal) → String → Option JVal
  | [], _ => none
  | (k, v) :: rest, key => if k = key then some v else jlookup rest key

/-- Python truthiness of a value. -/
def truthy : JVal → Bool
  | .null => false
  | .jb b => b
  | .jn n => n ≠ 0
  | .js s => s ≠ ""
  | .ja l => !l.isEmpty
  | .jo l => !l.isEmpty

/-- `v is None` (Python); in this model `None` and JSON `null` coincide. -/
def JVal.isNull : JVal → Bool
  | .null => true
  | _ => false

/-- Python `o.get(key, dflt)`: raises `AttributeError` unless `o` is a dict. -/
def pyGet (o : JVal) (key : String) (dflt : JVal) : Except PyErr JVal :=
  match o with
  | .jo fs => .ok ((jlookup fs key).getD dflt)
  | _ => .error .attributeError

/-- ASCII lowering on the character list, modelling Python `str.lower`. -/
def strLower (s : String) : String :=
  ⟨s.data.map Char.toLower⟩

/-- Python `v.lower()`: raises `AttributeError` unless `v` is a string. -/
def pyLower : JVal → Except PyErr String
  | .js s => .ok (strLower s)
  | _ => .error .attributeError

/-- Python `len(v)`: defined for lists, strings and dicts, else `TypeError`. -/
def pyLen : JVal → Except PyErr Nat
  | .ja l => .ok l.length
  | .js s => .ok s.length
  | .jo fs => .ok fs.length
  | _ => .error .typeError

/-- Python iteration over a value: lists yield elements, strings yield
one-character strings, dicts yield their keys; other values raise
`TypeError`. -/
def iterPy : JVal → Except PyErr (List JVal)
  | .ja l => .ok l
  | .js s => .ok (s.data.map (fun c => .js (String.singleton c)))
  | .jo fs => .ok (fs.map (fun kv => .js kv.1))
  | _ => .error .typeError

mutual

/-- Python `repr(v)` (as used inside container `str`): strings are quoted. -/
def pyRepr : JVal → String
  | .null => "None"
  | .jb true => "True"
  | .jb false => "False"
  | .jn n => toString n
  | .js s => "\x27" ++ s ++ "\x27"
  | .ja l => "[" ++ pyReprList l ++ "]"
  | .jo fs => "\x7b" ++ pyReprFields fs ++ "\x7d"

/-- Comma-separated reprs of list elements. -/
def pyReprList : List JVal → String
  | [] => ""
  | [x] => pyRepr x
  | x :: xs => pyRepr x ++ ", " ++ pyReprList xs

/-- Comma-separated reprs of dict entries. -/
def pyReprFields : List (String × JVal) → String
  | [] => ""
  | [(k, v)] => "\x27" ++ k ++ "\x27: " ++ pyRepr v
  | (k, v) :: kvs => "\x27" ++ k ++ "\x27: " ++ pyRepr v ++ ", " ++ pyReprFields kvs

end

/-- Python `str(v)`: like `repr` except top-level strings are unquoted. -/
def pyStr : JVal → String
  | .js s => s
  | v => pyRepr v

/-- Collect the element strings for `pyJoin`. -/
def joinStrs : List JVal → Except PyErr (List String)
  | [] => .ok []
  | .js s :: rest =>
    match joinStrs rest with
    | .error e => .error e
    | .ok strs => .ok (s :: strs)
  | _ :: _ => .error .typeError

/-- Python `sep.join(v)`: iterates `v` and requires every element to be a
string, else `TypeError`. -/
def pyJoin (sep : String) (v : JVal) : Except PyErr String :=
  match iterPy v with
  | .error e => .error e
  | .ok l =>
    match joinStrs l with
    | .error e => .error e
    | .ok strs => .ok (sep.intercalate strs)

/-- Python `v != 0` for the values in this model (`False == 0`, `True == 1`). -/
def pyNeZero : JVal → Bool
  | .jn n => n ≠ 0
  | .jb b => b
  | _ => true

/-- Python `int(v)` as an `Option`: `none` models the raised
`ValueError`/`TypeError` that `format_seconds_to_human` catches. -/
def pyToInt : JVal → Option Int
  | .jn n => some n
  | .jb b => some (if b then 1 else 0)
  | .js s => s.toInt?
  | _ => none

/-- `format_seconds_to_human` of `src/datadog_synthetics_export.py`
(lines 78–94): `if not seconds and seconds != 0: return "N/A"`, then
`int(seconds)` under a `try/except` returning `"N/A"`, then the
zero/hour/minute/second branches. -/
def format_seconds_to_human (seconds : JVal) : String :=
  if !truthy seconds && pyNeZero seconds then "N/A"
  else
    match pyToInt seconds with
    | none => "N/A"
    | some sec =>
      if sec = 0 then "0 seconds"
      else if sec % 3600 = 0 then
        toString (sec / 3600) ++ " hour" ++ (if sec / 3600 ≠ 1 then "s" else "")
      else if sec % 60 = 0 then
        toString (sec / 60) ++ " minute" ++ (if sec / 60 ≠ 1 then "s" else "")
      else toString sec ++ " seconds"

/-- Python `str.strip()`: drop whitespace from both ends. -/
def strStrip (s : String) : String :=
  ⟨((s.data.dropWhile Char.isWhitespace).reverse.dropWhile Char.isWhitespace).reverse⟩

/-- Python `str.replace(" ", "-")`: for a one-character pattern this is a
character map. -/
def strReplaceSpace (s : String) : String :=
  ⟨s.data.map (fun c => if c = ' ' then '-' else c)⟩

/-- `keyword.strip().lower().replace(" ", "-")`, the synthesized handle of
`src/GE_Alerts_extract.py` (lines 23 and 32). -/
def synthHandle (keyword : String) : String :=
  strReplaceSpace (strLower (strStrip keyword))

/-- The scan loop of `_extract_team_handle` (`src/GE_Alerts_extract.py`
lines 25–30): for each team record, `attrs = t.get("attributes", \x7b\x7d) or
\x7b\x7d`, `name = attrs.get("name", "")`, `handle = attrs.get("handle", "")`,
and return `handle` when `keyword.lower() in (name.lower(), handle.lower())`.
Returns `none` when no record matches. -/
def scanTeams (keyword : String) : List JVal → Except PyErr (Option JVal)
  | [] => .ok none
  | t :: rest =>
    match pyGet t "attributes" (.jo []) with
    | .error e => .error e
    | .ok attrs0 =>
      match pyGet (if truthy attrs0 then attrs0 else .jo []) "name" (.js "") with
      | .error e => .error e
      | .ok name =>
        match pyGet (if truthy attrs0 then attrs0 else .jo []) "handle" (.js "") with
        | .error e => .error e
        | .ok handle =>
          match pyLower name with
          | .error e => .error e
          | .ok nameL =>
            match pyLower handle with
            | .error e => .error e
            | .ok handleL =>
              if strLower keyword = nameL ∨ strLower keyword = handleL then
                .ok (some handle)
              else scanTeams keyword rest

/-- `_extract_team_handle` of `src/GE_Alerts_extract.py` (lines 15–32).
The list `teams` stands for the records the lookup endpoint returned
(`r.json().get("data", []) or []` in `_list_teams_by_keyword`); the network
transport is abstracted away.  Empty list: synthesized handle.  Otherwise:
first exact case-insensitive name/handle match wins, else
`teams[0].get("attributes", \x7b\x7d).get("handle", <synthesized>)`. -/
def extract_team_handle (keyword : String) (teams : List JVal) : Except PyErr JVal :=
  match teams with
  | [] => .ok (.js (synthHandle keyword))
  | t0 :: _ =>
    match scanTeams keyword teams with
    | .error e => .error e
    | .ok (some h) => .ok h
    | .ok none =>
      match pyGet t0 "attributes" (.jo []) with
      | .error e => .error e
      | .ok attrs => pyGet attrs "handle" (.js (synthHandle keyword))

/-- The four query variants of `find_monitors_for_team`
(`src/GE_Alerts_extract.py` lines 40–45), built from the resolved handle. -/
def mkVariants (h : String) : List String :=
  ["team:" ++ h, "team:\x22" ++ h ++ "\x22", "teams:" ++ h, "teams:\x22" ++ h ++ "\x22"]

/-- Modelled from the spec: the outcome of one `datadog_get` call against the
monitor-search endpoint.  `datadog_get` itself is not part of the sources;
per the spec's External Interfaces / Error Handling sections (and the
`response.raise_for_status()` pattern of every sibling script in the
repository) it returns the parsed JSON body on success, raises
`requests.HTTPError` for any non-success HTTP status (client or server
class), and raises other exception types for network-level failures. -/
inductive SearchOutcome where
  | ok (data : JVal)
  | httpError (status : Nat) (detail : String)
  | otherFailure (detail : String)

/-- A `\x7b"id": m.get("id"), "name": m.get("name")\x7d` monitor summary. -/
structure Monitor where
  id : JVal
  name : JVal

/-- Candidate extraction of `find_monitors_for_team`
(`src/GE_Alerts_extract.py` lines 51–56): list nested under
`data.monitors`, else under top-level `monitors`, else `[]`. -/
def extractCandidates (data : JVal) : JVal :=
  match data with
  | .jo fs =>
    match jlookup fs "data" with
    | some (.jo dfs) =>
      match jlookup dfs "monitors" with
      | some c => c
      | none => (jlookup fs "monitors").getD (.ja [])
    | _ => (jlookup fs "monitors").getD (.ja [])
  | _ => .ja []

/-- The id-filtering comprehension of `find_monitors_for_team`
(`src/GE_Alerts_extract.py` line 57) over an already-iterated candidate
list: keeps `\x7bid, name\x7d` for the entries whose `id` is not `None`;
a non-dict entry raises `AttributeError` at `m.get`. -/
def buildMonitors : List JVal → Except PyErr (List Monitor)
  | [] => .ok []
  | .jo fs :: rest =>
    match buildMonitors rest with
    | .error e => .error e
    | .ok ms =>
      if ((jlookup fs "id").getD .null).isNull then .ok ms
      else .ok ({ id := (jlookup fs "id").getD .null,
                  name := (jlookup fs "name").getD .null } :: ms)
  | _ :: _ => .error .attributeError

/-- `[... for m in (candidates or []) ...]` (`src/GE_Alerts_extract.py`
line 57): a falsy candidates value yields `[]`, otherwise the value is
iterated and filtered. -/
def monitorsFrom (candidates : JVal) : Except PyErr (List Monitor) :=
  if truthy candidates then
    match iterPy candidates with
    | .error e => .error e
    | .ok l => buildMonitors l
  else .ok []

/-- How the variant loop of `find_monitors_for_team` terminates, seen from a
caller: a Python error propagating out of the `try` body, a non-`HTTPError`
failure of the search call propagating out, or the `RuntimeError` raised
after the loop (`src/GE_Alerts_extract.py` lines 66–71). -/
inductive EngineErr where
  | py (e : PyErr)
  | transport (detail : String)
  | runtime (msg : String)

/-- The `RuntimeError` message of `src/GE_Alerts_extract.py` lines 68–71. -/
def aggMsg (team_input : String) (handle : JVal) (lastErr : String) : String :=
  "Failed to search monitors for team \x27" ++ team_input ++
    "\x27 (resolved handle \x27" ++ pyStr handle ++ "\x27). Last error: " ++ lastErr

/-- The variant loop of `find_monitors_for_team` (`src/GE_Alerts_extract.py`
lines 47–71), instrumented with the list of queries issued so far.  An
`HTTPError` from the search call is caught, recorded in `last_err` and the
loop advances; any other failure propagates; a non-empty id-filtered list
returns immediately; after exhaustion a recorded `last_err` becomes the
aggregated `RuntimeError`, and no error at all falls through to `None`. -/
def searchLoop (sf : String → SearchOutcome) (team_input : String) (handle : JVal) :
    List String → Option String → List String →
    Except EngineErr (Option (List Monitor)) × List String
  | [], lastErr, log =>
    (match lastErr with
     | some d => .error (.runtime (aggMsg team_input handle d))
     | none => .ok none, log)
  | q :: rest, lastErr, log =>
    match sf q with
    | .httpError _ d => searchLoop sf team_input handle rest (some d) (log ++ [q])
    | .otherFailure d => (.error (.transport d), log ++ [q])
    | .ok data =>
      match monitorsFrom (extractCandidates data) with
      | .error e => (.error (.py e), log ++ [q])
      | .ok ms =>
        if ms.isEmpty then searchLoop sf team_input handle rest lastErr (log ++ [q])
        else (.ok (some ms), log ++ [q])

/-- `find_monitors_for_team` (`src/GE_Alerts_extract.py` lines 34–71)
together with the trace of issued search queries: resolves the handle from
the team lookup records, then runs the variant loop against the search
oracle `sf`. -/
def find_monitors_run (team_input : String) (teams : List JVal)
    (sf : String → SearchOutcome) :
    Except EngineErr (Option (List Monitor)) × List String :=
  match extract_team_handle team_input teams with
  | .error e => (.error (.py e), [])
  | .ok handle => searchLoop sf team_input handle (mkVariants (pyStr handle)) none []

/-- The value `find_monitors_for_team` returns (or the error it raises). -/
def find_monitors_for_team (team_input : String) (teams : List JVal)
    (sf : String → SearchOutcome) : Except EngineErr (Option (List Monitor)) :=
  (find_monitors_run team_input teams sf).1

/-- The search queries `find_monitors_for_team` issues, in order. -/
def find_monitors_queries (team_input : String) (teams : List JVal)
    (sf : String → SearchOutcome) : List String :=
  (find_monitors_run team_input teams sf).2

/-- One query variant neither aborts nor succeeds: the search call raised an
`HTTPError`, or it succeeded with an empty id-filtered list. -/
def httpOrEmpty (sf : String → SearchOutcome) (q : String) : Prop :=
  (∃ st d, sf q = .httpError st d) ∨
  (∃ data, sf q = .ok data ∧ monitorsFrom (extractCandidates data) = .ok [])

/-- The `last_err` accumulation of the variant loop: detail of the last
query in the list whose search call raised an `HTTPError`. -/
def lastHttpDetail (sf : String → SearchOutcome) : List String → Option String → Option String
  | [], acc => acc
  | q :: rest, acc =>
    match sf q with
    | .httpError _ d => lastHttpDetail sf rest (some d)
    | _ => lastHttpDetail sf rest acc

/-- A concrete search oracle for the C1 witness: the third variant is the
first one with a non-empty id-filtered monitor list. -/
def c1sf : String → SearchOutcome := fun q =>
  if q = "teams:ops" then
    .ok (.jo [("monitors", .ja [.jo [("id", .jn 3), ("name", .js "disk")]])])
  else .ok (.jo [("monitors", .ja [])])

/-- A concrete search oracle for the C2 counterexample: the first variant
fails with a server-class (500) `HTTPError`, the second succeeds with one
monitor. -/
def c2sf : String → SearchOutcome := fun q =>
  if q = "team:ops" then .httpError 500 "500 Server Error: Internal Server Error for url"
  else if q = "team:\x22ops\x22" then
    .ok (.jo [("monitors", .ja [.jo [("id", .jn 7), ("name", .js "cpu high")]])])
  else .ok (.jo [])

/-- The transformation C5's words state: the keyword lower-cased with its
spaces replaced by hyphens (no stripping). -/
def claimSynthC5 (keyword : String) : String :=
  strReplaceSpace (strLower keyword)

/-- A team record as the lookup endpoint describes it: optional `name` and
`handle` attributes (present attributes are strings). -/
structure TeamRec where
  name : Option String
  handle : Option String
deriving DecidableEq, Repr

/-- The attribute field list of an encoded team record. -/
def encFields (r : TeamRec) : List (String × JVal) :=
  (match r.name with | some s => [("name", JVal.js s)] | none => []) ++
  (match r.handle with | some s => [("handle", JVal.js s)] | none => [])

/-- Encode a team record as the lookup endpoint's JSON shape
`\x7b"attributes": \x7b"name": ..., "handle": ...\x7d\x7d`. -/
def encTeamRec (r : TeamRec) : JVal :=
  .jo [("attributes", .jo (encFields r))]

/-- A record's name or handle attribute case-insensitively equals the
keyword (the claim's exact-match notion). -/
def ciMatch (kw : String) (r : TeamRec) : Bool :=
  (match r.name with | some s => strLower s == strLower kw | none => false) ||
  (match r.handle with | some s => strLower s == strLower kw | none => false)

/-- The `while True` pagination loop of `get_synthetic_tests`
(`src/datadog_synthetics_export.py` lines 33–59), driven by a page-body
oracle `fetch` (the parsed JSON of the successful page-`p` request; a
transport failure aborts before any of this logic runs and is out of
scope here).  Each iteration: `data = response.json() or \x7b\x7d`,
`tests = data.get("tests", [])`, break on falsy `tests`, extend, break when
fewer than `page_size = 100` items came back, else `page += 1`.  `fuel`
bounds the unbounded source loop; `none` means it was exhausted.  The
returned number counts the requests issued (pages `0..page`). -/
def fetchPagesLoop (fetch : Nat → JVal) : Nat → Nat → List JVal →
    Option (Except PyErr (List JVal) × Nat)
  | 0, _, _ => none
  | fuel + 1, page, acc =>
    match pyGet (if truthy (fetch page) then fetch page else .jo []) "tests" (.ja []) with
    | .error e => some (.error e, page + 1)
    | .ok tests =>
      if truthy tests = false then some (.ok acc, page + 1)
      else
        match iterPy tests with
        | .error e => some (.error e, page + 1)
        | .ok items =>
          if items.length < 100 then some (.ok (acc ++ items), page + 1)
          else fetchPagesLoop fetch fuel (page + 1) (acc ++ items)

/-- `get_synthetic_tests`: run the pagination loop from page 0 with an
empty accumulator. -/
def get_synthetic_tests (fetch : Nat → JVal) (fuel : Nat) :
    Option (Except PyErr (List JVal) × Nat) :=
  fetchPagesLoop fetch fuel 0 []

/-- Concatenation of `n` consecutive pages starting at `start`. -/
def concatPages (pages : Nat → List JVal) : Nat → Nat → List JVal
  | _, 0 => []
  | start, n + 1 => pages start ++ concatPages pages (start + 1) n

/-- Page shapes for the C8 witness: sizes 100, 100, 37, ... -/
def c8pagesA : Nat → List JVal :=
  fun p => if p ≤ 1 then List.replicate 100 .null else List.replicate 37 .null

/-- Page shapes for the C8 witness: sizes 100, 100, 100, 0, ... -/
def c8pagesB : Nat → List JVal :=
  fun p => if p ≤ 2 then List.replicate 100 .null else []

/-- `extract_subtype` (`src/datadog_synthetics_export.py` lines 62–75):
`api` tests report their own `subtype` (default `"N/A"`); `browser`/`mobile`
tests report `"multistep"` when truthy `steps` has more than one entry. -/
def extract_subtype (test : JVal) (test_type : String) : Except PyErr JVal :=
  if test_type = "api" then pyGet test "subtype" (.js "N/A")
  else if test_type = "browser" ∨ test_type = "mobile" then
    match pyGet test "steps" (.ja []) with
    | .error e => .error e
    | .ok steps =>
      if truthy steps then
        match pyLen steps with
        | .error e => .error e
        | .ok l => if 1 < l then .ok (.js "multistep") else .ok (.js "N/A")
      else .ok (.js "N/A")
  else .ok (.js "N/A")

/-- `extract_frequency` (`src/datadog_synthetics_export.py` lines 97–104):
`options.tick_every` through the duration formatter; `test_type` is unused
in the source as well. -/
def extract_frequency (test : JVal) (test_type : String) : Except PyErr String :=
  match pyGet test "options" (.jo []) with
  | .error e => .error e
  | .ok options =>
    match pyGet options "tick_every" .null with
    | .error e => .error e
    | .ok tick => .ok (format_seconds_to_human tick)

/-- The entries of `DAY_MAP` (`src/datadog_synthetics_export.py` line 23),
looked up by value.  Python's `True == 1` also hits key 1; `False == 0` is
not a key. -/
def dayMapLookup : JVal → Option String
  | .jn 1 => some "Mon"
  | .jn 2 => some "Tue"
  | .jn 3 => some "Wed"
  | .jn 4 => some "Thu"
  | .jn 5 => some "Fri"
  | .jn 6 => some "Sat"
  | .jn 7 => some "Sun"
  | .jb true => some "Mon"
  | _ => none

/-- `DAY_MAP.get(day_num, ...)` (`src/datadog_synthetics_export.py`
line 123): Python `dict.get` raises `TypeError` on an unhashable key
(a list or dict `day` value); on hashable keys it returns the entry or
falls back to the default (modelled as `none` here, substituted by the
caller). -/
def dayMapGet (v : JVal) : Except PyErr (Option String) :=
  match v with
  | .ja _ => .error .typeError
  | .jo _ => .error .typeError
  | _ => .ok (dayMapLookup v)

/-- The timeframe loop of `extract_schedule`
(`src/datadog_synthetics_export.py` lines 118–128): each timeframe with
truthy `from` and `to` renders `"<Day> <from>-<to>"`, or `"<from>-<to>"`
when `day` is `None`; the `DAY_MAP.get` on line 123 runs for every
timeframe (before the `from`/`to` truthiness test), so an unhashable
`day` raises even in otherwise-skipped timeframes. -/
def buildWindows : List JVal → Except PyErr (List String)
  | [] => .ok []
  | tf :: rest =>
    match pyGet tf "day" .null with
    | .error e => .error e
    | .ok day_num =>
      match pyGet tf "from" .null with
      | .error e => .error e
      | .ok start =>
        match pyGet tf "to" .null with
        | .error e => .error e
        | .ok stop =>
          match dayMapGet day_num with
          | .error e => .error e
          | .ok dmg =>
            let day_str :=
              match dmg with
              | some s => s
              | none => if day_num.isNull then "N/A" else pyStr day_num
            match buildWindows rest with
            | .error e => .error e
            | .ok ws =>
              if truthy start && truthy stop then
                if day_num.isNull then .ok ((pyStr start ++ "-" ++ pyStr stop) :: ws)
                else .ok ((day_str ++ " " ++ pyStr start ++ "-" ++ pyStr stop) :: ws)
              else .ok ws

/-- `extract_schedule` (`src/datadog_synthetics_export.py` lines 107–133):
timezone (`or "N/A"`) and the `"; "`-joined windows (`"N/A"` when none). -/
def extract_schedule (test : JVal) : Except PyErr (JVal × String) :=
  match pyGet test "options" (.jo []) with
  | .error e => .error e
  | .ok options =>
    match pyGet options "scheduling" (.jo []) with
    | .error e => .error e
    | .ok scheduling0 =>
      let scheduling := if truthy scheduling0 then scheduling0 else .jo []
      match pyGet scheduling "timezone" .null with
      | .error e => .error e
      | .ok tz0 =>
        let timezone := if truthy tz0 then tz0 else .js "N/A"
        match pyGet scheduling "timeframes" .null with
        | .error e => .error e
        | .ok tfs0 =>
          let timeframes := if truthy tfs0 then tfs0 else .ja []
          match iterPy timeframes with
          | .error e => .error e
          | .ok tfl =>
            match buildWindows tfl with
            | .error e => .error e
            | .ok windows =>
              .ok (timezone, if windows.isEmpty then "N/A" else "; ".intercalate windows)

/-- `extract_locations` (`src/datadog_synthetics_export.py` lines 136–141). -/
def extract_locations (test : JVal) : Except PyErr String :=
  match pyGet test "locations" (.ja []) with
  | .error e => .error e
  | .ok locations =>
    if truthy locations then pyJoin ", " locations else .ok "N/A"

/-- `extract_device_ids` (`src/datadog_synthetics_export.py` lines 144–150). -/
def extract_device_ids (test : JVal) : Except PyErr String :=
  match pyGet test "options" (.jo []) with
  | .error e => .error e
  | .ok options =>
    match pyGet options "device_ids" (.ja []) with
    | .error e => .error e
    | .ok device_ids =>
      if truthy device_ids then pyJoin ", " device_ids else .ok "N/A"

/-- `extract_tags` (`src/datadog_synthetics_export.py` lines 153–158). -/
def extract_tags (test : JVal) : Except PyErr String :=
  match pyGet test "tags" (.ja []) with
  | .error e => .error e
  | .ok tags =>
    if truthy tags then pyJoin ", " tags else .ok "N/A"

/-- `extract_monitor_id` (`src/datadog_synthetics_export.py` lines 161–166). -/
def extract_monitor_id (test : JVal) : Except PyErr String :=
  match pyGet test "monitor_id" .null with
  | .error e => .error e
  | .ok mid => .ok (if mid.isNull then "N/A" else pyStr mid)

/-- `get_status` (`src/datadog_synthetics_export.py` lines 169–174). -/
def get_status (test : JVal) : Except PyErr String :=
  match pyGet test "status" .null with
  | .error e => .error e
  | .ok status =>
    if truthy status then
      match pyLower status with
      | .error e => .error e
      | .ok s => .ok s
    else .ok "N/A"

/-- One exported row (`src/datadog_synthetics_export.py` lines 183–196):
raw JSON values where the source stores `test.get(...)` results directly,
strings where it stores formatted text. -/
structure Row where
  public_id : JVal
  name : JVal
  type : String
  subtype : JVal
  status : String
  frequency : String
  locations : String
  monitor_id : String
  device_ids : String
  tags : String
  schedule_timezone : JVal
  schedule_windows : String

/-- The per-record body of `process_synthetic_tests`
(`src/datadog_synthetics_export.py` lines 180–196), in the source's
evaluation order. -/
def processTest (test : JVal) : Except PyErr Row :=
  match pyGet test "type" .null with
  | .error e => .error e
  | .ok ty0 =>
    match pyLower (if truthy ty0 then ty0 else .js "") with
    | .error e => .error e
    | .ok test_type =>
      match extract_schedule test with
      | .error e => .error e
      | .ok schedule =>
        match pyGet test "public_id" (.js "N/A") with
        | .error e => .error e
        | .ok pid =>
          match pyGet test "name" (.js "N/A") with
          | .error e => .error e
          | .ok nm =>
            match extract_subtype test test_type with
            | .error e => .error e
            | .ok st =>
              match get_status test with
              | .error e => .error e
              | .ok stat =>
                match extract_frequency test test_type with
                | .error e => .error e
                | .ok freq =>
                  match extract_locations test with
                  | .error e => .error e
                  | .ok locs =>
                    match extract_monitor_id test with
                    | .error e => .error e
                    | .ok mid =>
                      match extract_device_ids test with
                      | .error e => .error e
                      | .ok dev =>
                        match extract_tags test with
                        | .error e => .error e
                        | .ok tg =>
                          .ok { public_id := pid, name := nm, type := test_type,
                                subtype := st, status := stat, frequency := freq,
                                locations := locs, monitor_id := mid,
                                device_ids := dev, tags := tg,
                                schedule_timezone := schedule.1,
                                schedule_windows := schedule.2 }

/-- `process_synthetic_tests` (`src/datadog_synthetics_export.py` lines
177–197): normalize each record in order; a raised Python error aborts the
whole run. -/
def process_synthetic_tests : List JVal → Except PyErr (List Row)
  | [] => .ok []
  | t :: rest =>
    match processTest t with
    | .error e => .error e
    | .ok r =>
      match process_synthetic_tests rest with
      | .error e => .error e
      | .ok rs => .ok (r :: rs)

/-- A value is a string, or falsy (so the source's `or`-guards replace it). -/
def strOrFalsy : JVal → Bool
  | .js _ => true
  | v => !truthy v

/-- A value `len` accepts, or falsy. -/
def sizedOrFalsy : JVal → Bool
  | .ja _ => true
  | .js _ => true
  | .jo _ => true
  | v => !truthy v

/-- A value `", ".join` accepts (list of strings, string, or dict), or
falsy. -/
def strListOk : JVal → Bool
  | .ja l => l.all fun x => match x with | .js _ => true | _ => false
  | .js _ => true
  | .jo _ => true
  | v => !truthy v

/-- A value Python can hash: everything here except lists and dicts
(which make `dict.get` raise `TypeError` when used as a key). -/
def hashable : JVal → Bool
  | .ja _ => false
  | .jo _ => false
  | _ => true

/-- A well-typed `timeframes` value: a list of objects whose `day` values
are hashable, or falsy. -/
def timeframesOk : JVal → Bool
  | .ja l => l.all fun x =>
      match x with
      | .jo tfs => hashable ((jlookup tfs "day").getD .null)
      | _ => false
  | v => !truthy v

/-- A well-typed `scheduling` value: an object whose `timeframes` (if any)
is well-typed, or falsy. -/
def schedulingOk : JVal → Bool
  | .jo sfs => timeframesOk ((jlookup sfs "timeframes").getD .null)
  | v => !truthy v

/-- A well-typed `options` value: an object with well-typed `scheduling`
and `device_ids` entries. -/
def optionsOk : JVal → Bool
  | .jo ofs =>
    schedulingOk ((jlookup ofs "scheduling").getD (.jo [])) &&
    strListOk ((jlookup ofs "device_ids").getD (.ja []))
  | _ => false

/-- A record all of whose present fields have the types the extractors
dereference: such records never make normalization raise (missing fields
are always fine — every extractor has a default for them). -/
def wellFormedTest (t : JVal) : Bool :=
  match t with
  | .jo fs =>
    strOrFalsy ((jlookup fs "type").getD .null) &&
    strOrFalsy ((jlookup fs "status").getD .null) &&
    sizedOrFalsy ((jlookup fs "steps").getD (.ja [])) &&
    strListOk ((jlookup fs "locations").getD (.ja [])) &&
    strListOk ((jlookup fs "tags").getD (.ja [])) &&
    optionsOk ((jlookup fs "options").getD (.jo []))
  | _ => false

/-- A fully populated, well-typed synthetic-test record for the C9
witness. -/
def c9rec : JVal :=
  .jo [("public_id", .js "abc-123"), ("name", .js "Checkout"),
       ("type", .js "browser"), ("status", .js "LIVE"),
       ("steps", .ja [.jo [], .jo [], .jo []]),
       ("locations", .ja [.js "aws:us-east-1", .js "aws:eu-west-1"]),
       ("tags", .ja [.js "team:ops"]), ("monitor_id", .jn 42),
       ("options", .jo [("tick_every", .jn 300),
                        ("device_ids", .ja [.js "chrome.laptop_large"]),
                        ("scheduling", .jo [("timezone", .js "Pacific/Auckland"),
                          ("timeframes", .ja [.jo [("day", .jn 1),
                            ("from", .js "06:00"), ("to", .js "20:00")]])])])]

/-- When every query either raises `HTTPError` or yields an empty filtered
list, the loop runs to exhaustion: it issues every query and ends in the
aggregated `RuntimeError` when some query errored, else in `None`. -/
theorem searchLoop_exhaust (sf : String → SearchOutcome) (tin : String) (hv : JVal)
    (qs : List String) :
    ∀ (lastErr : Option String) (log : List String),
    (∀ q ∈ qs, httpOrEmpty sf q) →
    searchLoop sf tin hv qs lastErr log =
      ((match lastHttpDetail sf qs lastErr with
        | some d => Except.error (.runtime (aggMsg tin hv d))
        | none => Except.ok none), log ++ qs) := by
  induction qs with
  | nil =>
    intro lastErr log _
    simp [searchLoop, lastHttpDetail]
  | cons q rest ih =>
    intro lastErr log hall
    have hq : httpOrEmpty sf q := hall q (List.mem_cons_self _ _)
    have hrest : ∀ q' ∈ rest, httpOrEmpty sf q' :=
      fun q' h' => hall q' (List.mem_cons_of_mem _ h')
    rcases hq with ⟨st, d, hsf⟩ | ⟨data, hsf, hmf⟩
    · rw [show searchLoop sf tin hv (q :: rest) lastErr log =
            searchLoop sf tin hv rest (some d) (log ++ [q]) from by
          simp [searchLoop, hsf]]
      rw [ih (some d) (log ++ [q]) hrest]
      simp [lastHttpDetail, hsf]
    · rw [show searchLoop sf tin hv (q :: rest) lastErr log =
            searchLoop sf tin hv rest lastErr (log ++ [q]) from by
          simp [searchLoop, hsf, hmf]]
      rw [ih lastErr (log ++ [q]) hrest]
      simp [lastHttpDetail, hsf]

/-- C1: given the resolved handle, the engine tries the four variants in the
fixed order `team:h`, `team:"h"`, `teams:h`, `teams:"h"`; when every search
call succeeds, the result is the id-filtered list of the first variant whose
filtered list is non-empty (`None` when all are empty), and the queries
issued are exactly the variants up to and including that first success. -/
theorem find_monitors_first_success (sf : String → SearchOutcome)
    (tin : String) (teams : List JVal) (h : String)
    (hres : extract_team_handle tin teams = .ok (.js h))
    (d0 d1 d2 d3 : JVal) (l0 l1 l2 l3 : List Monitor)
    (h0 : sf ("team:" ++ h) = .ok d0)
    (m0 : monitorsFrom (extractCandidates d0) = .ok l0)
    (h1 : sf ("team:\x22" ++ h ++ "\x22") = .ok d1)
    (m1 : monitorsFrom (extractCandidates d1) = .ok l1)
    (h2 : sf ("teams:" ++ h) = .ok d2)
    (m2 : monitorsFrom (extractCandidates d2) = .ok l2)
    (h3 : sf ("teams:\x22" ++ h ++ "\x22") = .ok d3)
    (m3 : monitorsFrom (extractCandidates d3) = .ok l3) :
    find_monitors_for_team tin teams sf =
      .ok (if !l0.isEmpty then some l0
           else if !l1.isEmpty then some l1
           else if !l2.isEmpty then some l2
           else if !l3.isEmpty then some l3
           else none)
    ∧ find_monitors_queries tin teams sf =
        (if !l0.isEmpty then (mkVariants h).take 1
         else if !l1.isEmpty then (mkVariants h).take 2
         else if !l2.isEmpty then (mkVariants h).take 3
         else mkVariants h) := by
  have key : find_monitors_run tin teams sf =
      (.ok (if !l0.isEmpty then some l0
            else if !l1.isEmpty then some l1
            else if !l2.isEmpty then some l2
            else if !l3.isEmpty then some l3
            else none),
       (if !l0.isEmpty then (mkVariants h).take 1
        else if !l1.isEmpty then (mkVariants h).take 2
        else if !l2.isEmpty then (mkVariants h).take 3
        else mkVariants h)) := by
    unfold find_monitors_run
    rw [hres]
    show searchLoop sf tin (.js h) (mkVariants (pyStr (.js h))) none [] = _
    rw [show pyStr (.js h) = h from rfl]
    by_cases e0 : l0.isEmpty <;> by_cases e1 : l1.isEmpty <;>
      by_cases e2 : l2.isEmpty <;> by_cases e3 : l3.isEmpty <;>
      simp [mkVariants, searchLoop, h0, m0, h1, m1, h2, m2, h3, m3, e0, e1, e2, e3]
  exact ⟨by simp [find_monitors_for_team, key], by simp [find_monitors_queries, key]⟩

/-- Witness for C1: with the first two variants empty and the third
non-empty, the engine returns the third list and stops after three
requests. -/
theorem find_monitors_first_success_witness :
    find_monitors_for_team "ops" [] c1sf = .ok (some [{ id := .jn 3, name := .js "disk" }])
    ∧ find_monitors_queries "ops" [] c1sf = ["team:ops", "team:\x22ops\x22", "teams:ops"] := by
  have hmain := find_monitors_first_success c1sf "ops" [] "ops" rfl
    (.jo [("monitors", .ja [])]) (.jo [("monitors", .ja [])])
    (.jo [("monitors", .ja [.jo [("id", .jn 3), ("name", .js "disk")]])])
    (.jo [("monitors", .ja [])])
    [] [] [{ id := .jn 3, name := .js "disk" }] []
    rfl rfl rfl rfl rfl rfl rfl rfl
  simpa [mkVariants] using hmain

/-- C2 amended: the variant loop catches any `HTTPError` from the search
call — the caught exception class never inspects the HTTP status, so server
errors are recovered exactly like client errors — records its detail and
advances to the remaining variants; only a failure that is not an
`HTTPError` propagates immediately. -/
theorem searchLoop_error_classes (sf : String → SearchOutcome) (tin : String)
    (hv : JVal) (q : String) (qs log : List String) (lastErr : Option String) :
    (∀ st d, sf q = .httpError st d →
      searchLoop sf tin hv (q :: qs) lastErr log =
        searchLoop sf tin hv qs (some d) (log ++ [q]))
    ∧ (∀ d, sf q = .otherFailure d →
      searchLoop sf tin hv (q :: qs) lastErr log =
        (.error (.transport d), log ++ [q])) := by
  constructor
  · intro st d hsf
    simp [searchLoop, hsf]
  · intro d hsf
    simp [searchLoop, hsf]

/-- Counterexample to C2 as stated: a server-error (HTTP 500) response from
the search endpoint does NOT propagate out of the engine — the loop advances
and issues the second variant's request, returning its result. -/
theorem find_monitors_server_error_recovered :
    find_monitors_for_team "ops" [] c2sf = .ok (some [{ id := .jn 7, name := .js "cpu high" }])
    ∧ find_monitors_queries "ops" [] c2sf = ["team:ops", "team:\x22ops\x22"] := by
  constructor <;> rfl

/-- Witness for C2 amended: an `HTTPError` (even status 500) advances the
loop; a non-`HTTPError` failure aborts it immediately. -/
theorem searchLoop_error_classes_witness :
    searchLoop c2sf "ops" (.js "ops") ["team:ops", "x"] none [] =
      searchLoop c2sf "ops" (.js "ops") ["x"]
        (some "500 Server Error: Internal Server Error for url") ["team:ops"]
    ∧ searchLoop (fun _ => .otherFailure "connection reset") "ops" (.js "ops")
        ["team:ops", "x"] none [] =
      (.error (.transport "connection reset"), ["team:ops"]) :=
  ⟨(searchLoop_error_classes c2sf "ops" (.js "ops") "team:ops" ["x"] [] none).1
      500 "500 Server Error: Internal Server Error for url" rfl,
   (searchLoop_error_classes (fun _ => .otherFailure "connection reset") "ops" (.js "ops")
      "team:ops" ["x"] [] none).2 "connection reset" rfl⟩

/-- C3: when all four variants succeed at the transport level and every
id-filtered list is empty, the engine does not raise: it returns the
distinct no-matches outcome (`None`), never the aggregated failure. -/
theorem find_monitors_no_matches (sf : String → SearchOutcome)
    (tin : String) (teams : List JVal) (h : String)
    (hres : extract_team_handle tin teams = .ok (.js h))
    (d0 d1 d2 d3 : JVal)
    (h0 : sf ("team:" ++ h) = .ok d0)
    (m0 : monitorsFrom (extractCandidates d0) = .ok [])
    (h1 : sf ("team:\x22" ++ h ++ "\x22") = .ok d1)
    (m1 : monitorsFrom (extractCandidates d1) = .ok [])
    (h2 : sf ("teams:" ++ h) = .ok d2)
    (m2 : monitorsFrom (extractCandidates d2) = .ok [])
    (h3 : sf ("teams:\x22" ++ h ++ "\x22") = .ok d3)
    (m3 : monitorsFrom (extractCandidates d3) = .ok []) :
    find_monitors_for_team tin teams sf = .ok none
    ∧ ∀ msg, find_monitors_for_team tin teams sf ≠ .error (.runtime msg) := by
  have hall : ∀ q ∈ mkVariants h, httpOrEmpty sf q := by
    intro q hq
    simp only [mkVariants, List.mem_cons, List.mem_singleton] at hq
    rcases hq with rfl | rfl | rfl | (rfl | hq)
    · exact Or.inr ⟨d0, h0, m0⟩
    · exact Or.inr ⟨d1, h1, m1⟩
    · exact Or.inr ⟨d2, h2, m2⟩
    · exact Or.inr ⟨d3, h3, m3⟩
    · cases hq
  have hmain : find_monitors_for_team tin teams sf = .ok none := by
    unfold find_monitors_for_team find_monitors_run
    rw [hres]
    show (searchLoop sf tin (.js h) (mkVariants (pyStr (.js h))) none []).1 = _
    rw [show pyStr (.js h) = h from rfl]
    rw [searchLoop_exhaust sf tin (.js h) (mkVariants h) none [] hall]
    have hl : lastHttpDetail sf (mkVariants h) none = none := by
      simp [mkVariants, lastHttpDetail, h0, h1, h2, h3]
    rw [hl]
  refine ⟨hmain, ?_⟩
  intro msg
  rw [hmain]
  intro hcon
  cases hcon

/-- Witness for C3: an oracle answering every query with an empty object
yields the no-matches outcome. -/
theorem find_monitors_no_matches_witness :
    find_monitors_for_team "ops" [] (fun _ => .ok (.jo [])) = .ok none
    ∧ ∀ msg, find_monitors_for_team "ops" [] (fun _ => .ok (.jo [])) ≠ .error (.runtime msg) :=
  find_monitors_no_matches (fun _ => .ok (.jo [])) "ops" [] "ops" rfl
    (.jo []) (.jo []) (.jo []) (.jo []) rfl rfl rfl rfl rfl rfl rfl rfl

/-- C4: when every variant is either grammar-rejected (`HTTPError`) or
empty and at least one variant errored, the engine raises the aggregated
`RuntimeError`, whose message contains the original keyword, the resolved
handle, and the last encountered error's detail. -/
theorem find_monitors_aggregated_failure (sf : String → SearchOutcome)
    (tin : String) (teams : List JVal) (h d : String)
    (hres : extract_team_handle tin teams = .ok (.js h))
    (hall : ∀ q ∈ mkVariants h, httpOrEmpty sf q)
    (hlast : lastHttpDetail sf (mkVariants h) none = some d) :
    find_monitors_for_team tin teams sf = .error (.runtime (aggMsg tin (.js h) d))
    ∧ (∃ p s, aggMsg tin (.js h) d = p ++ tin ++ s)
    ∧ (∃ p s, aggMsg tin (.js h) d = p ++ h ++ s)
    ∧ (∃ p s, aggMsg tin (.js h) d = p ++ d ++ s) := by
  refine ⟨?_,
    ⟨"Failed to search monitors for team \x27",
     "\x27 (resolved handle \x27" ++ h ++ "\x27). Last error: " ++ d, ?_⟩,
    ⟨"Failed to search monitors for team \x27" ++ tin ++ "\x27 (resolved handle \x27",
     "\x27). Last error: " ++ d, ?_⟩,
    ⟨"Failed to search monitors for team \x27" ++ tin ++ "\x27 (resolved handle \x27" ++
       h ++ "\x27). Last error: ", "", ?_⟩⟩
  · unfold find_monitors_for_team find_monitors_run
    rw [hres]
    show (searchLoop sf tin (.js h) (mkVariants (pyStr (.js h))) none []).1 = _
    rw [show pyStr (.js h) = h from rfl]
    rw [searchLoop_exhaust sf tin (.js h) (mkVariants h) none [] hall, hlast]
  · simp [aggMsg, pyStr, String.append_assoc]
  · simp [aggMsg, pyStr, String.append_assoc]
  · simp [aggMsg, pyStr, String.append_assoc]

/-- Witness for C4: every variant rejected with a 400; the aggregated
message carries keyword, handle and last error detail. -/
theorem find_monitors_aggregated_failure_witness :
    find_monitors_for_team "ops" [] (fun _ => .httpError 400 "400 Bad Request") =
      .error (.runtime (aggMsg "ops" (.js "ops") "400 Bad Request"))
    ∧ (∃ p s, aggMsg "ops" (.js "ops") "400 Bad Request" = p ++ "ops" ++ s)
    ∧ (∃ p s, aggMsg "ops" (.js "ops") "400 Bad Request" = p ++ "ops" ++ s)
    ∧ (∃ p s, aggMsg "ops" (.js "ops") "400 Bad Request" = p ++ "400 Bad Request" ++ s) :=
  find_monitors_aggregated_failure (fun _ => .httpError 400 "400 Bad Request")
    "ops" [] "ops" "400 Bad Request" rfl
    (fun q _ => Or.inl ⟨400, "400 Bad Request", rfl⟩) rfl

/-- Counterexample to C5 as stated: for a keyword with leading whitespace
the code strips first, so the result differs from plain
lower-case-and-hyphenate. -/
theorem extract_team_handle_strips_first :
    extract_team_handle " a" [] = .ok (.js "a")
    ∧ claimSynthC5 " a" = "-a"
    ∧ synthHandle " a" ≠ claimSynthC5 " a" :=
  ⟨rfl, rfl, by decide⟩

/-- C5 amended: for a keyword with zero lookup records, the resolver returns
the keyword stripped of surrounding whitespace, lower-cased, with the
remaining spaces replaced by hyphens — and never raises. -/
theorem extract_team_handle_empty_lookup (keyword : String) :
    extract_team_handle keyword [] =
      .ok (.js (strReplaceSpace (strLower (strStrip keyword)))) := rfl

/-- ASCII lowering maps only nonempty strings to nonempty strings. -/
theorem strLower_ne_empty (s : String) (h : s ≠ "") : strLower s ≠ "" := by
  intro hc
  apply h
  have hd : s.data.map Char.toLower = [] := congrArg String.data hc
  exact String.ext (List.map_eq_nil_iff.mp hd)

/-- The `attrs or \x7b\x7d` guard is the identity on dict values. -/
theorem truthy_guard_jo (fields : List (String × JVal)) :
    (if truthy (.jo fields) then JVal.jo fields else .jo []) = .jo fields := by
  cases fields <;> simp [truthy]

/-- Looking up `name` in an encoded record. -/
theorem enc_name (r : TeamRec) : jlookup (encFields r) "name" = r.name.map JVal.js := by
  rcases r with ⟨n, h⟩
  cases n <;> cases h <;> simp [encFields, jlookup]

/-- Looking up `handle` in an encoded record. -/
theorem enc_handle (r : TeamRec) : jlookup (encFields r) "handle" = r.handle.map JVal.js := by
  rcases r with ⟨n, h⟩
  cases n <;> cases h <;> simp [encFields, jlookup]

/-- The scan condition of `_extract_team_handle` agrees with `ciMatch` on
encoded records whenever the keyword is nonempty. -/
theorem scan_cond_iff (kw : String) (hkw : kw ≠ "") (r : TeamRec) :
    (strLower kw = strLower (r.name.getD "") ∨ strLower kw = strLower (r.handle.getD ""))
      ↔ ciMatch kw r = true := by
  have hlow : strLower kw ≠ "" := strLower_ne_empty kw hkw
  have hemp : strLower "" = "" := rfl
  rcases r with ⟨n, h⟩
  cases n <;> cases h <;>
    simp [ciMatch, hemp, eq_comm (a := strLower kw)] <;>
    tauto

/-- One step of the scan loop on an encoded record reduces to the Python
match condition on its attributes. -/
theorem scanTeams_enc_step (kw : String) (r : TeamRec) (rest : List JVal) :
    scanTeams kw (encTeamRec r :: rest) =
      (if strLower kw = strLower (r.name.getD "") ∨ strLower kw = strLower (r.handle.getD "")
       then .ok (some (.js (r.handle.getD "")))
       else scanTeams kw rest) := by
  rcases r with ⟨n, h⟩
  cases n <;> cases h <;>
    simp [scanTeams, encTeamRec, encFields, pyGet, jlookup, truthy, pyLower]

/-- The scan loop over encoded records returns the `handle` attribute
(defaulted to `""`) of the first `ciMatch`-ing record. -/
theorem scanTeams_enc (kw : String) (hkw : kw ≠ "") (recs : List TeamRec) :
    scanTeams kw (recs.map encTeamRec) =
      .ok ((recs.find? (ciMatch kw)).map (fun r => JVal.js (r.handle.getD ""))) := by
  induction recs with
  | nil => simp [scanTeams]
  | cons r rest ih =>
    rw [List.map_cons, scanTeams_enc_step]
    by_cases hm : ciMatch kw r = true
    · rw [if_pos ((scan_cond_iff kw hkw r).mpr hm), List.find?_cons_of_pos _ hm]
      rfl
    · rw [if_neg (fun hc => hm ((scan_cond_iff kw hkw r).mp hc)),
        List.find?_cons_of_neg _ hm]
      exact ih

/-- C6: with a non-empty lookup result, the resolver scans records in
order and returns the handle of the first record whose name or handle
attribute case-insensitively equals the keyword — even when that record is
not the first — and, when no record matches, falls back to the first
record's handle. -/
theorem extract_team_handle_match_preference (kw : String) (recs : List TeamRec)
    (hkw : kw ≠ "") (hne : recs ≠ []) :
    (∀ r h, recs.find? (ciMatch kw) = some r → r.handle = some h →
        extract_team_handle kw (recs.map encTeamRec) = .ok (.js h))
    ∧ (recs.find? (ciMatch kw) = none →
        ∀ r0 h0, recs.head? = some r0 → r0.handle = some h0 →
          extract_team_handle kw (recs.map encTeamRec) = .ok (.js h0)) := by
  rcases recs with _ | ⟨r1, rest⟩
  · exact absurd rfl hne
  constructor
  · intro r h hfind hh
    have hscan : scanTeams kw (encTeamRec r1 :: List.map encTeamRec rest) =
        .ok (some (.js (r.handle.getD ""))) := by
      have hmain := scanTeams_enc kw hkw (r1 :: rest)
      rw [hfind] at hmain
      simpa using hmain
    simp [extract_team_handle, hscan, hh]
  · intro hfind r0 h0 hr0 hh0
    have hr : r1 = r0 := by
      have h' : some r1 = some r0 := hr0
      injection h'
    subst hr
    have hscan : scanTeams kw (encTeamRec r1 :: List.map encTeamRec rest) =
        .ok none := by
      have hmain := scanTeams_enc kw hkw (r1 :: rest)
      rw [hfind] at hmain
      simpa using hmain
    rw [List.map_cons]
    simp only [extract_team_handle]
    rw [hscan]
    simp [pyGet, encTeamRec, jlookup, enc_handle, hh0]

/-- Witness for C6: the second record matches case-insensitively and its
handle is returned; with no match at all, the first record's handle is the
fallback. -/
theorem extract_team_handle_match_preference_witness :
    extract_team_handle "Ops Team"
        ([⟨some "Other", some "other"⟩, ⟨some "ops team", some "ops-team"⟩].map encTeamRec) =
      .ok (.js "ops-team")
    ∧ extract_team_handle "zzz" ([⟨some "Alpha", some "alpha"⟩].map encTeamRec) =
        .ok (.js "alpha") :=
  ⟨(extract_team_handle_match_preference "Ops Team"
      [⟨some "Other", some "other"⟩, ⟨some "ops team", some "ops-team"⟩]
      (by decide) (by decide)).1
      ⟨some "ops team", some "ops-team"⟩ "ops-team" (by decide) (by decide),
   (extract_team_handle_match_preference "zzz" [⟨some "Alpha", some "alpha"⟩]
      (by decide) (by decide)).2 (by decide)
      ⟨some "Alpha", some "alpha"⟩ "alpha" (by decide) (by decide)⟩

/-- C10: when the first case-insensitively matching record matches on its
name but its attributes lack a `handle` key, the resolver returns the empty
string (the match branch substitutes `""`, not the synthesized handle). -/
theorem extract_team_handle_missing_handle (kw : String) (recs : List TeamRec)
    (r : TeamRec) (s : String) (hkw : kw ≠ "")
    (hfind : recs.find? (ciMatch kw) = some r)
    (hname : r.name = some s) (hmatch : strLower s = strLower kw)
    (hhandle : r.handle = none) :
    extract_team_handle kw (recs.map encTeamRec) = .ok (.js "") := by
  rcases recs with _ | ⟨r1, rest⟩
  · simp [List.find?] at hfind
  have hscan : scanTeams kw (encTeamRec r1 :: List.map encTeamRec rest) =
      .ok (some (.js (r.handle.getD ""))) := by
    have hmain := scanTeams_enc kw hkw (r1 :: rest)
    rw [hfind] at hmain
    simpa using hmain
  simp [extract_team_handle, hscan, hhandle]

/-- Witness for C10: a single record whose name matches `"QA"` but which has
no handle attribute resolves to the empty string. -/
theorem extract_team_handle_missing_handle_witness :
    extract_team_handle "QA" ([⟨some "qa", none⟩].map encTeamRec) = .ok (.js "") :=
  extract_team_handle_missing_handle "QA" [⟨some "qa", none⟩] ⟨some "qa", none⟩ "qa"
    (by decide) (by decide) (by decide) (by decide) (by decide)

/-- One iteration of the pagination loop on a well-shaped page body:
break with the accumulator on an empty page, break after accumulating a
short page, else accumulate and advance. -/
theorem fetchPagesLoop_step (fetch : Nat → JVal) (pages : Nat → List JVal)
    (henc : ∀ p, fetch p = .jo [("tests", .ja (pages p))])
    (fuel page : Nat) (acc : List JVal) :
    fetchPagesLoop fetch (fuel + 1) page acc =
      (if (pages page).isEmpty then some (.ok acc, page + 1)
       else if (pages page).length < 100 then some (.ok (acc ++ pages page), page + 1)
       else fetchPagesLoop fetch fuel (page + 1) (acc ++ pages page)) := by
  rcases hp : pages page with _ | ⟨t, ts⟩ <;>
    simp [fetchPagesLoop, henc page, hp, truthy, pyGet, jlookup, iterPy]

/-- The pagination loop started at any page accumulates exactly the pages
up to and including the first short page, and issues exactly one request
per accumulated page. -/
theorem fetchPagesLoop_terminates (fetch : Nat → JVal) (pages : Nat → List JVal)
    (henc : ∀ p, fetch p = .jo [("tests", .ja (pages p))]) :
    ∀ (k fuel page : Nat) (acc : List JVal),
    (∀ i, i < k → (pages (page + i)).length = 100) →
    (pages (page + k)).length < 100 →
    k < fuel →
    fetchPagesLoop fetch fuel page acc =
      some (.ok (acc ++ concatPages pages page (k + 1)), page + k + 1) := by
  intro k
  induction k with
  | zero =>
    intro fuel page acc _ hlast hfuel
    cases fuel with
    | zero => exact absurd hfuel (by omega)
    | succ fuel' =>
      have hlen : (pages page).length < 100 := by simpa using hlast
      rw [fetchPagesLoop_step fetch pages henc fuel' page acc]
      by_cases he : (pages page).isEmpty
      · rw [if_pos he]
        have hpe : pages page = [] := by simpa using he
        simp [concatPages, hpe]
      · rw [if_neg he, if_pos hlen]
        simp [concatPages]
  | succ k ih =>
    intro fuel page acc hfull hlast hfuel
    cases fuel with
    | zero => exact absurd hfuel (by omega)
    | succ fuel' =>
      have hlen : (pages page).length = 100 := by
        have h0 := hfull 0 (by omega)
        simpa using h0
      have he : ¬ (pages page).isEmpty := by
        intro hc
        have hpe : pages page = [] := by simpa using hc
        rw [hpe] at hlen
        simp at hlen
      rw [fetchPagesLoop_step fetch pages henc fuel' page acc, if_neg he,
        if_neg (by omega)]
      have hfull' : ∀ i, i < k → (pages (page + 1 + i)).length = 100 := by
        intro i hi
        have hi1 := hfull (i + 1) (by omega)
        rwa [show page + (i + 1) = page + 1 + i by omega] at hi1
      have hlast' : (pages (page + 1 + k)).length < 100 := by
        rwa [show page + (k + 1) = page + 1 + k by omega] at hlast
      rw [ih fuel' (page + 1) (acc ++ pages page) hfull' hlast' (by omega)]
      rw [show concatPages pages page (k + 1 + 1) =
            pages page ++ concatPages pages (page + 1) (k + 1) from rfl]
      rw [show page + 1 + k + 1 = page + (k + 1) + 1 from by omega]
      simp [List.append_assoc]

/-- C8: the fetcher requests pages from index 0 upward, one request per
page, and terminates exactly at the first page with zero items or with
strictly fewer than the requested 100 items, accumulating that final
partial page: with `k` full pages before the first short page it issues
exactly `k + 1` requests and returns the concatenation of pages
`0 .. k`. -/
theorem get_synthetic_tests_pagination (fetch : Nat → JVal) (pages : Nat → List JVal)
    (k fuel : Nat)
    (henc : ∀ p, fetch p = .jo [("tests", .ja (pages p))])
    (hfull : ∀ i, i < k → (pages i).length = 100)
    (hlast : (pages k).length < 100)
    (hfuel : k < fuel) :
    get_synthetic_tests fetch fuel = some (.ok (concatPages pages 0 (k + 1)), k + 1) := by
  have hmain := fetchPagesLoop_terminates fetch pages henc k fuel 0 []
    (by simpa using hfull) (by simpa using hlast) hfuel
  simpa [get_synthetic_tests] using hmain

set_option maxRecDepth 10000 in
/-- Witness for C8: pages `[100, 100, 37]` give 3 requests and 237 items;
pages `[100, 100, 100, 0]` give 4 requests and 300 items. -/
theorem get_synthetic_tests_pagination_witness :
    get_synthetic_tests (fun p => .jo [("tests", .ja (c8pagesA p))]) 10 =
      some (.ok (concatPages c8pagesA 0 3), 3)
    ∧ (concatPages c8pagesA 0 3).length = 237
    ∧ get_synthetic_tests (fun p => .jo [("tests", .ja (c8pagesB p))]) 10 =
      some (.ok (concatPages c8pagesB 0 4), 4)
    ∧ (concatPages c8pagesB 0 4).length = 300 :=
  ⟨get_synthetic_tests_pagination _ c8pagesA 2 10 (fun _ => rfl)
      (by
        intro i hi
        have hi2 : i = 0 ∨ i = 1 := by omega
        rcases hi2 with rfl | rfl <;> decide)
      (by decide) (by decide),
   by decide,
   get_synthetic_tests_pagination _ c8pagesB 3 10 (fun _ => rfl)
      (by
        intro i hi
        have hi3 : i = 0 ∨ i = 1 ∨ i = 2 := by omega
        rcases hi3 with rfl | rfl | rfl <;> decide)
      (by decide) (by decide),
   by decide⟩

/-- `joinStrs` succeeds on a list of string values. -/
theorem joinStrs_total (l : List JVal) (h : ∀ x ∈ l, ∃ s, x = JVal.js s) :
    ∃ strs, joinStrs l = .ok strs := by
  induction l with
  | nil => exact ⟨[], rfl⟩
  | cons x xs ih =>
    obtain ⟨s, rfl⟩ := h x (List.mem_cons_self _ _)
    obtain ⟨strs, hstrs⟩ := ih (fun y hy => h y (List.mem_cons_of_mem _ hy))
    exact ⟨s :: strs, by simp [joinStrs, hstrs]⟩

/-- `pyJoin` succeeds on any `strListOk` truthy value. -/
theorem pyJoin_total (sep : String) (v : JVal) (h : strListOk v = true)
    (ht : truthy v = true) : ∃ s, pyJoin sep v = .ok s := by
  cases v with
  | ja l =>
    simp only [strListOk, List.all_eq_true] at h
    have hall : ∀ x ∈ l, ∃ s, x = JVal.js s := by
      intro x hx
      have hx2 := h x hx
      cases x <;> simp_all
    obtain ⟨strs, hstrs⟩ := joinStrs_total l hall
    exact ⟨_, by simp [pyJoin, iterPy, hstrs]; rfl⟩
  | js s =>
    have hall : ∀ x ∈ s.data.map (fun c => JVal.js (String.singleton c)),
        ∃ s', x = JVal.js s' := by
      intro x hx
      obtain ⟨c, _, hxc⟩ := List.mem_map.mp hx
      exact ⟨String.singleton c, hxc.symm⟩
    obtain ⟨strs, hstrs⟩ := joinStrs_total _ hall
    exact ⟨_, by simp [pyJoin, iterPy, hstrs]; rfl⟩
  | jo fs =>
    have hall : ∀ x ∈ fs.map (fun kv => JVal.js kv.1), ∃ s', x = JVal.js s' := by
      intro x hx
      obtain ⟨kv, _, hxc⟩ := List.mem_map.mp hx
      exact ⟨kv.1, hxc.symm⟩
    obtain ⟨strs, hstrs⟩ := joinStrs_total _ hall
    exact ⟨_, by simp [pyJoin, iterPy, hstrs]; rfl⟩
  | null => simp [truthy] at ht
  | jb b => simp_all [strListOk, truthy]
  | jn n => simp_all [strListOk, truthy]

/-- An `optionsOk` value is an object. -/
theorem optionsOk_shape (v : JVal) (h : optionsOk v = true) : ∃ ofs, v = .jo ofs := by
  cases v <;> first | exact ⟨_, rfl⟩ | simp [optionsOk] at h

/-- `len` succeeds on any sized truthy value. -/
theorem pyLen_of_sized (v : JVal) (h : sizedOrFalsy v = true) (ht : truthy v = true) :
    ∃ n, pyLen v = .ok n := by
  cases v <;> simp_all [sizedOrFalsy, truthy, pyLen]

/-- The guarded `lower()` of the type field succeeds on a string-or-falsy
value. -/
theorem pyLower_guard (v : JVal) (h : strOrFalsy v = true) :
    ∃ s, pyLower (if truthy v then v else .js "") = .ok s := by
  by_cases ht : truthy v
  · cases v <;> simp_all [strOrFalsy, truthy, pyLower]
  · exact ⟨"", by simp [ht, pyLower, strLower]⟩

/-- `extract_locations` never raises on a well-typed record. -/
theorem extract_locations_total (fs : List (String × JVal))
    (h : strListOk ((jlookup fs "locations").getD (.ja [])) = true) :
    ∃ s, extract_locations (.jo fs) = .ok s := by
  by_cases ht : truthy ((jlookup fs "locations").getD (.ja []))
  · obtain ⟨s, hs⟩ := pyJoin_total ", " _ h ht
    exact ⟨s, by simp [extract_locations, pyGet, ht, hs]⟩
  · exact ⟨"N/A", by simp [extract_locations, pyGet, ht]⟩

/-- `extract_tags` never raises on a well-typed record. -/
theorem extract_tags_total (fs : List (String × JVal))
    (h : strListOk ((jlookup fs "tags").getD (.ja [])) = true) :
    ∃ s, extract_tags (.jo fs) = .ok s := by
  by_cases ht : truthy ((jlookup fs "tags").getD (.ja []))
  · obtain ⟨s, hs⟩ := pyJoin_total ", " _ h ht
    exact ⟨s, by simp [extract_tags, pyGet, ht, hs]⟩
  · exact ⟨"N/A", by simp [extract_tags, pyGet, ht]⟩

/-- `extract_device_ids` never raises on a well-typed record. -/
theorem extract_device_ids_total (fs : List (String × JVal))
    (h : optionsOk ((jlookup fs "options").getD (.jo [])) = true) :
    ∃ s, extract_device_ids (.jo fs) = .ok s := by
  obtain ⟨ofs, hofs⟩ := optionsOk_shape _ h
  rw [hofs] at h
  simp only [optionsOk, Bool.and_eq_true] at h
  obtain ⟨_, hdev⟩ := h
  by_cases ht : truthy ((jlookup ofs "device_ids").getD (.ja []))
  · obtain ⟨s, hs⟩ := pyJoin_total ", " _ hdev ht
    exact ⟨s, by simp [extract_device_ids, pyGet, hofs, ht, hs]⟩
  · exact ⟨"N/A", by simp [extract_device_ids, pyGet, hofs, ht]⟩

/-- `extract_frequency` never raises on a well-typed record. -/
theorem extract_frequency_total (fs : List (String × JVal)) (test_type : String)
    (h : optionsOk ((jlookup fs "options").getD (.jo [])) = true) :
    ∃ s, extract_frequency (.jo fs) test_type = .ok s := by
  obtain ⟨ofs, hofs⟩ := optionsOk_shape _ h
  exact ⟨_, by simp [extract_frequency, pyGet, hofs]; rfl⟩

/-- `extract_subtype` never raises on a well-typed record. -/
theorem extract_subtype_total (fs : List (String × JVal)) (test_type : String)
    (h : sizedOrFalsy ((jlookup fs "steps").getD (.ja [])) = true) :
    ∃ v, extract_subtype (.jo fs) test_type = .ok v := by
  by_cases h1 : test_type = "api"
  · exact ⟨_, by simp [extract_subtype, h1, pyGet]; rfl⟩
  by_cases h2 : test_type = "browser" ∨ test_type = "mobile"
  · by_cases ht : truthy ((jlookup fs "steps").getD (.ja []))
    · obtain ⟨n, hn⟩ := pyLen_of_sized _ h ht
      exact ⟨if 1 < n then .js "multistep" else .js "N/A",
        by
          simp only [extract_subtype, if_neg h1, if_pos h2, pyGet, hn, ht, if_true]
          split <;> rfl⟩
    · exact ⟨.js "N/A", by simp [extract_subtype, h1, h2, pyGet, ht]⟩
  · exact ⟨.js "N/A", by simp [extract_subtype, h1, h2]⟩

/-- `get_status` never raises on a well-typed record. -/
theorem get_status_total (fs : List (String × JVal))
    (h : strOrFalsy ((jlookup fs "status").getD .null) = true) :
    ∃ s, get_status (.jo fs) = .ok s := by
  by_cases ht : truthy ((jlookup fs "status").getD .null)
  · rcases hv : (jlookup fs "status").getD .null with _ | b | n | s | l | o
    · rw [hv] at ht
      simp [truthy] at ht
    · rw [hv] at h ht
      simp_all [strOrFalsy, truthy]
    · rw [hv] at h ht
      simp_all [strOrFalsy, truthy]
    · have ht2 : truthy (JVal.js s) = true := by rw [hv] at ht; exact ht
      exact ⟨strLower s, by simp [get_status, pyGet, hv, ht2, pyLower]⟩
    · rw [hv] at h ht
      simp_all [strOrFalsy, truthy]
    · rw [hv] at h ht
      simp_all [strOrFalsy, truthy]
  · exact ⟨"N/A", by simp [get_status, pyGet, ht]⟩

/-- `DAY_MAP.get` never raises on a hashable key. -/
theorem dayMapGet_total (v : JVal) (h : hashable v = true) :
    ∃ r, dayMapGet v = .ok r := by
  cases v with
  | ja l => simp [hashable] at h
  | jo fs => simp [hashable] at h
  | null => exact ⟨_, rfl⟩
  | jb b => exact ⟨_, rfl⟩
  | jn n => exact ⟨_, rfl⟩
  | js s => exact ⟨_, rfl⟩

/-- `buildWindows` never raises on a list of timeframe objects with
hashable `day` values. -/
theorem buildWindows_total (l : List JVal)
    (h : ∀ x ∈ l, ∃ tfs, x = JVal.jo tfs
        ∧ hashable ((jlookup tfs "day").getD .null) = true) :
    ∃ ws, buildWindows l = .ok ws := by
  induction l with
  | nil => exact ⟨[], rfl⟩
  | cons tf rest ih =>
    obtain ⟨tfs, rfl, hday⟩ := h tf (List.mem_cons_self _ _)
    obtain ⟨dmg, hdmg⟩ := dayMapGet_total _ hday
    obtain ⟨ws, hws⟩ := ih (fun y hy => h y (List.mem_cons_of_mem _ hy))
    by_cases hc : (truthy ((jlookup tfs "from").getD .null) &&
        truthy ((jlookup tfs "to").getD .null)) = true
    · by_cases hd : ((jlookup tfs "day").getD .null).isNull = true
      · exact ⟨_, by simp [buildWindows, pyGet, hdmg, hws, hc, hd]; rfl⟩
      · exact ⟨_, by simp [buildWindows, pyGet, hdmg, hws, hc, hd]; rfl⟩
    · exact ⟨ws, by simp [buildWindows, pyGet, hdmg, hws, hc]⟩

/-- A truthy `schedulingOk` value is an object with well-typed timeframes. -/
theorem schedulingOk_shape (v : JVal) (h : schedulingOk v = true) (ht : truthy v = true) :
    ∃ sfs, v = .jo sfs ∧ timeframesOk ((jlookup sfs "timeframes").getD .null) = true := by
  cases v <;> simp_all [schedulingOk, truthy]

/-- A truthy `timeframesOk` value is a list of objects with hashable
`day` values. -/
theorem timeframesOk_shape (v : JVal) (h : timeframesOk v = true) (ht : truthy v = true) :
    ∃ l, v = .ja l ∧ ∀ x ∈ l, ∃ tfs, x = JVal.jo tfs
        ∧ hashable ((jlookup tfs "day").getD .null) = true := by
  cases v with
  | ja l =>
    refine ⟨l, rfl, ?_⟩
    simp only [timeframesOk, List.all_eq_true] at h
    intro x hx
    have hx2 := h x hx
    cases x <;> simp_all
  | null => simp [truthy] at ht
  | jb b => simp_all [timeframesOk, truthy]
  | jn n => simp_all [timeframesOk, truthy]
  | js s => simp_all [timeframesOk, truthy]
  | jo fs => simp_all [timeframesOk, truthy]

/-- `extract_schedule` never raises on a well-typed record. -/
theorem extract_schedule_total (fs : List (String × JVal))
    (h : optionsOk ((jlookup fs "options").getD (.jo [])) = true) :
    ∃ tzw, extract_schedule (.jo fs) = .ok tzw := by
  obtain ⟨ofs, hofs⟩ := optionsOk_shape _ h
  rw [hofs] at h
  simp only [optionsOk, Bool.and_eq_true] at h
  obtain ⟨hsched, _⟩ := h
  have hmain : ∃ sfs, (if truthy ((jlookup ofs "scheduling").getD (.jo []))
        then (jlookup ofs "scheduling").getD (.jo []) else .jo []) = .jo sfs
      ∧ timeframesOk ((jlookup sfs "timeframes").getD .null) = true := by
    by_cases ht : truthy ((jlookup ofs "scheduling").getD (.jo []))
    · obtain ⟨sfs, heq, htf⟩ := schedulingOk_shape _ hsched ht
      rw [heq] at ht
      exact ⟨sfs, by rw [heq, if_pos ht], htf⟩
    · exact ⟨[], by simp [ht], by simp [jlookup, timeframesOk, truthy]⟩
  obtain ⟨sfs, hsfs, htf⟩ := hmain
  have htfl : ∃ l, iterPy (if truthy ((jlookup sfs "timeframes").getD .null)
        then (jlookup sfs "timeframes").getD .null else .ja []) = .ok l
      ∧ ∀ x ∈ l, ∃ tfs, x = JVal.jo tfs
          ∧ hashable ((jlookup tfs "day").getD .null) = true := by
    by_cases htt : truthy ((jlookup sfs "timeframes").getD .null)
    · obtain ⟨l, heq, hall⟩ := timeframesOk_shape _ htf htt
      rw [heq] at htt
      exact ⟨l, by rw [heq, if_pos htt]; rfl, hall⟩
    · exact ⟨[], by simp [htt, iterPy], by simp⟩
  obtain ⟨tfl, htfl1, htfl2⟩ := htfl
  obtain ⟨ws, hws⟩ := buildWindows_total tfl htfl2
  exact ⟨_, by simp [extract_schedule, pyGet, hofs, hsfs, htfl1, hws]; rfl⟩

/-- `processTest` never raises on a well-typed record. -/
theorem processTest_total (t : JVal) (hwf : wellFormedTest t = true) :
    ∃ r, processTest t = .ok r := by
  cases t with
  | jo fs =>
    simp only [wellFormedTest, Bool.and_eq_true] at hwf
    obtain ⟨⟨⟨⟨⟨hty, hst⟩, hsteps⟩, hloc⟩, htags⟩, hopt⟩ := hwf
    obtain ⟨test_type, htt⟩ := pyLower_guard _ hty
    obtain ⟨schedv, hsched⟩ := extract_schedule_total fs hopt
    obtain ⟨stv, hsub⟩ := extract_subtype_total fs test_type hsteps
    obtain ⟨statv, hstat⟩ := get_status_total fs hst
    obtain ⟨freqv, hfreq⟩ := extract_frequency_total fs test_type hopt
    obtain ⟨locv, hlocs⟩ := extract_locations_total fs hloc
    obtain ⟨devv, hdev⟩ := extract_device_ids_total fs hopt
    obtain ⟨tagv, htagv⟩ := extract_tags_total fs htags
    exact ⟨_, by
      simp [processTest, pyGet, htt, hsched, hsub, hstat, hfreq, hlocs, hdev,
        htagv, extract_monitor_id]
      rfl⟩
  | null => simp [wellFormedTest] at hwf
  | jb b => simp [wellFormedTest] at hwf
  | jn n => simp [wellFormedTest] at hwf
  | js s => simp [wellFormedTest] at hwf
  | ja l => simp [wellFormedTest] at hwf

/-- Counterexample to C9 as stated: normalization is not total on malformed
records — a record whose `options` field holds a number makes
`process_synthetic_tests` raise `AttributeError` (at `options.get` inside
`extract_schedule`). -/
theorem process_raises_on_malformed :
    process_synthetic_tests [.jo [("options", .jn 5)]] = .error .attributeError := rfl

/-- The unhashable-day error path of `DAY_MAP.get` (line 123) is preserved
by the model: a timeframe whose `day` is a list makes normalization raise
`TypeError`, as Python does. -/
theorem process_raises_on_unhashable_day :
    process_synthetic_tests
      [.jo [("options", .jo [("scheduling", .jo [("timeframes",
        .ja [.jo [("day", .ja []), ("from", .js "06:00"), ("to", .js "20:00")]])])])]] =
      .error .typeError := rfl

/-- C9 amended: normalization never raises on records whose present fields
are well-typed for the extractors (missing fields never raise — every
extractor defaults); in particular the empty record normalizes to the
all-default row.  Malformed present fields (e.g. a numeric `options`) can
raise. -/
theorem process_synthetic_tests_total (tests : List JVal)
    (hwf : ∀ t ∈ tests, wellFormedTest t = true) :
    (∃ rows, process_synthetic_tests tests = .ok rows)
    ∧ process_synthetic_tests [.jo []] =
        .ok [{ public_id := .js "N/A", name := .js "N/A", type := "",
               subtype := .js "N/A", status := "N/A", frequency := "N/A",
               locations := "N/A", monitor_id := "N/A", device_ids := "N/A",
               tags := "N/A", schedule_timezone := .js "N/A",
               schedule_windows := "N/A" }] := by
  refine ⟨?_, rfl⟩
  induction tests with
  | nil => exact ⟨[], rfl⟩
  | cons t rest ih =>
    obtain ⟨r, hr⟩ := processTest_total t (hwf t (List.mem_cons_self _ _))
    obtain ⟨rows, hrows⟩ := ih (fun y hy => hwf y (List.mem_cons_of_mem _ hy))
    exact ⟨r :: rows, by simp [process_synthetic_tests, hr, hrows]⟩

/-- Witness for C9 amended: a fully populated well-typed record and the
empty record both normalize without raising. -/
theorem process_synthetic_tests_total_witness :
    (∃ rows, process_synthetic_tests [c9rec] = .ok rows)
    ∧ process_synthetic_tests [.jo []] =
        .ok [{ public_id := .js "N/A", name := .js "N/A", type := "",
               subtype := .js "N/A", status := "N/A", frequency := "N/A",
               locations := "N/A", monitor_id := "N/A", device_ids := "N/A",
               tags := "N/A", schedule_timezone := .js "N/A",
               schedule_windows := "N/A" }] :=
  process_synthetic_tests_total [c9rec]
    (by
      intro t ht
      have ht2 : t = c9rec := by simpa using ht
      subst ht2
      rfl)

/-- C7: `format_seconds_to_human` yields `"N/A"` on `None` and on any
non-numeric input, `"0 seconds"` on 0, `"<n> hour(s)"` on exact multiples
of 3600 with correct pluralization, else `"<n> minute(s)"` on exact
multiples of 60, else `"<n> seconds"`; the hour check precedes the minute
check, so 3600 gives `"1 hour"`, 7200 `"2 hours"`, 120 `"2 minutes"` and
90 `"90 seconds"`. -/
theorem format_seconds_to_human_spec (v : JVal) (n : Int) :
    (pyToInt v = none → format_seconds_to_human v = "N/A")
    ∧ format_seconds_to_human .null = "N/A"
    ∧ format_seconds_to_human (.jn 0) = "0 seconds"
    ∧ (n ≠ 0 → n % 3600 = 0 →
        format_seconds_to_human (.jn n) =
          toString (n / 3600) ++ " hour" ++ (if n / 3600 ≠ 1 then "s" else ""))
    ∧ (n % 3600 ≠ 0 → n % 60 = 0 →
        format_seconds_to_human (.jn n) =
          toString (n / 60) ++ " minute" ++ (if n / 60 ≠ 1 then "s" else ""))
    ∧ (n ≠ 0 → n % 3600 ≠ 0 → n % 60 ≠ 0 →
        format_seconds_to_human (.jn n) = toString n ++ " seconds")
    ∧ format_seconds_to_human (.jn 3600) = "1 hour"
    ∧ format_seconds_to_human (.jn 7200) = "2 hours"
    ∧ format_seconds_to_human (.jn 120) = "2 minutes"
    ∧ format_seconds_to_human (.jn 90) = "90 seconds" := by
  refine ⟨?_, by decide, by decide, ?_, ?_, ?_, by decide, by decide, by decide, by decide⟩
  · intro hv
    unfold format_seconds_to_human
    rcases h : (!truthy v && pyNeZero v) with _ | _
    · simp only [h, Bool.false_eq_true, if_false, hv]
    · simp only [h, if_true]
  · intro hn h3600
    simp [format_seconds_to_human, truthy, pyNeZero, pyToInt, hn, h3600]
  · intro h3600 h60
    have hn : n ≠ 0 := by
      intro h0
      exact h3600 (by simp [h0])
    simp [format_seconds_to_human, truthy, pyNeZero, pyToInt, hn, h3600, h60]
  · intro hn h3600 h60
    simp [format_seconds_to_human, truthy, pyNeZero, pyToInt, hn, h3600, h60]

/-- Witness for C7: instantiates every hypothetical branch of
`format_seconds_to_human_spec` at concrete inputs. -/
theorem format_seconds_to_human_spec_witness :
    format_seconds_to_human (.ja [.null]) = "N/A"
    ∧ format_seconds_to_human (.jn 7200) = "2 hours"
    ∧ format_seconds_to_human (.jn 120) = "2 minutes"
    ∧ format_seconds_to_human (.jn 90) = "90 seconds" :=
  ⟨(format_seconds_to_human_spec (.ja [.null]) 0).1 (by decide),
   (format_seconds_to_human_spec .null 7200).2.2.2.1 (by decide) (by decide),
   (format_seconds_to_human_spec .null 120).2.2.2.2.1 (by decide) (by decide),
   (format_seconds_to_human_spec .null 90).2.2.2.2.2.1 (by decide) (by decide) (by decide)⟩
